import Mathlib

/-!
Verification of the libpuppetdb client library (puppetlabs-toy-chest/libpuppetdb).

The repository bundles three lineage versions of the single-header library:
* `V020` — LibPuppetdb 0.2.0 (`src/include/libpuppetdb/libpuppetdb.h`, first
  document): fail-fast model, constructors and `performQuery` throw typed
  errors (`query_error`, `connector_error`, `processing_error`).
* `V010` — LibPuppetdb 0.1.0 (same header, second document): non-throwing
  model, validity flags and integer error codes on the `Query` object.
* `PQ` — PuppetdbQuery 0.1.0 (header appended to
  `src/test/libpuppetdb_test.cpp`): oldest version, has `Query::toString`.

External effects (libcurl, the filesystem) are modelled by explicit
environments:
* `SysEnv` supplies the SSL-support bit of `curl_version_info` and the
  filesystem oracle behind `fileExists` (whether `std::ifstream{p}.good()`).
* `CurlBehavior` supplies `curl_easy_init` success, `curl_easy_escape`
  (`none` models a NULL return), the outcome of `curl_easy_perform`
  (final `CURLcode` plus the bytes handed to the `CURLOPT_WRITEFUNCTION`
  callback during the transfer), and `curl_easy_strerror`.
Handle lifecycle and network activity are recorded as a `CurlEvent` trace.
-/

/-- Environment for the non-curl-handle system facilities: SSL support as
reported by `curl_version_info`, and the filesystem behind `fileExists`
(`fsGood p` models `std::ifstream{p}.good()`). -/
structure SysEnv where
  sslSupported : Bool
  fsGood : String → Bool

/-- `fileExists` from libpuppetdb.h (both LibPuppetdb versions): false for an
empty path, otherwise whether the input stream on the path is good. -/
def fileExists (env : SysEnv) (file_path : String) : Bool :=
  if file_path = "" then false else env.fsGood file_path

/-- First element of the list satisfying the predicate, mirroring the C++
range-for loops that return/throw at the first failing element. -/
def firstSuchThat (p : String → Bool) : List String → Option String
  | [] => none
  | c :: cs => if p c then some c else firstSuchThat p cs

deriving instance DecidableEq for Except

/-- Behaviour of the libcurl transport for one run: whether `curl_easy_init`
yields a handle, the `curl_easy_escape` function (`none` = NULL),
`curl_easy_perform` as a function of the configured URL returning the final
`CURLcode` (0 = `CURLE_OK`) together with the bytes delivered to the write
callback during the transfer, and `curl_easy_strerror`. -/
structure CurlBehavior where
  initOk : Bool
  escape : String → Option String
  performResult : String → Int × String
  strerror : Int → String

/-- Observable libcurl handle events: handle acquisition (with success bit),
one network transfer on a URL, and handle release. -/
inductive CurlEvent
  | easyInit (ok : Bool)
  | easyPerform (url : String)
  | easyCleanup
deriving DecidableEq, Repr

namespace V020

/-- Typed errors of LibPuppetdb 0.2.0: `query_error`, `connector_error` and
`processing_error`, each carrying its message. -/
inductive LibError
  | query_error (msg : String)
  | connector_error (msg : String)
  | processing_error (msg : String)
deriving DecidableEq, Repr

/-- `ApiVersion` enum of version 0.2.0. -/
inductive ApiVersion
  | v2
  | v3
  | v4
deriving DecidableEq, Repr

/-- `ApiVersionsMap` lookup. -/
def apiVersionString : ApiVersion → String
  | ApiVersion.v2 => "v2"
  | ApiVersion.v3 => "v3"
  | ApiVersion.v4 => "v4"

/-- `PUPPETDB_HTTP_PORT` constant. -/
def PUPPETDB_HTTP_PORT : Int := 8080

/-- `PUPPETDB_SECURE_PORT` constant. -/
def PUPPETDB_SECURE_PORT : Int := 8081

/-- A constructed `Query` object of version 0.2.0: endpoint and query string
fields (this version has no error-code field). -/
structure Query where
  endpoint : String
  query_string : String
deriving DecidableEq, Repr

/-- `Query::getEndpoint`. -/
def Query.getEndpoint (q : Query) : String := q.endpoint

/-- `Query::getQueryString`. -/
def Query.getQueryString (q : Query) : String := q.query_string

/-- The `Query` constructor: stores both strings, then throws `query_error`
when the endpoint is empty. -/
def mkQuery (endpoint : String) (query_string : String) : Except LibError Query :=
  if endpoint = "" then Except.error (LibError.query_error "no endpoint specified")
  else Except.ok { endpoint := endpoint, query_string := query_string }

/-- A constructed `PuppetdbConnector` object of version 0.2.0. -/
structure PuppetdbConnector where
  hostname : String
  port : Int
  api_version : ApiVersion
  ca_crt_path : String
  client_crt_path : String
  client_key_path : String
  is_secure : Bool
  performed_query_url : String
deriving DecidableEq, Repr

/-- `PuppetdbConnector::isSecure`. -/
def isSecure (c : PuppetdbConnector) : Bool := c.is_secure

/-- `PuppetdbConnector::getPerformedQueryUrl`. -/
def getPerformedQueryUrl (c : PuppetdbConnector) : String := c.performed_query_url

/-- `PuppetdbConnector::checkHostname`: throws `connector_error` on an empty
hostname. -/
def checkHostname (hostname : String) : Except LibError Unit :=
  if hostname = "" then Except.error (LibError.connector_error "no hostname specified")
  else Except.ok ()

/-- `PuppetdbConnector::checkSSLSupport`: throws `connector_error` when the
curl build lacks `CURL_VERSION_SSL`. -/
def checkSSLSupport (env : SysEnv) : Except LibError Unit :=
  if env.sslSupported then Except.ok ()
  else Except.error (LibError.connector_error "libcurl is not SSL enabled")

/-- `PuppetdbConnector::checkCertificates`: first loop throws at the first
empty path among the three, second loop throws at the first path that is not
an existing file. -/
def checkCertificates (env : SysEnv) (certificates : List String) : Except LibError Unit :=
  match firstSuchThat (fun cert => cert = "") certificates with
  | some _ => Except.error (LibError.connector_error "not all certificates were specified")
  | none =>
    match firstSuchThat (fun cert => !(fileExists env cert)) certificates with
    | some cert => Except.error (LibError.connector_error ("invalid certificate file: " ++ cert))
    | none => Except.ok ()

/-- The HTTP (plain) `PuppetdbConnector` constructor: initializes the fields
and runs `checkHostname`. -/
def mkConnector (hostname : String) (port : Int) (api_version : ApiVersion) :
    Except LibError PuppetdbConnector :=
  match checkHostname hostname with
  | Except.error e => Except.error e
  | Except.ok _ =>
    Except.ok { hostname := hostname, port := port, api_version := api_version,
                ca_crt_path := "", client_crt_path := "", client_key_path := "",
                is_secure := false, performed_query_url := "" }

/-- The SSL `PuppetdbConnector` constructor: initializes the fields and runs
`checkHostname`, `checkSSLSupport`, `checkCertificates` in that order, each
throwing on failure (short-circuiting the rest). -/
def mkSecureConnector (env : SysEnv) (hostname ca_crt_path client_crt_path client_key_path : String)
    (port : Int) (api_version : ApiVersion) : Except LibError PuppetdbConnector :=
  match checkHostname hostname with
  | Except.error e => Except.error e
  | Except.ok _ =>
    match checkSSLSupport env with
    | Except.error e => Except.error e
    | Except.ok _ =>
      match checkCertificates env [ca_crt_path, client_crt_path, client_key_path] with
      | Except.error e => Except.error e
      | Except.ok _ =>
        Except.ok { hostname := hostname, port := port, api_version := api_version,
                    ca_crt_path := ca_crt_path, client_crt_path := client_crt_path,
                    client_key_path := client_key_path,
                    is_secure := true, performed_query_url := "" }

/-- `PuppetdbConnector::getQueryUrl` (0.2.0): percent-encodes a non-empty
query string through `curl_easy_escape`, throwing `processing_error` when the
escape returns NULL, then assembles
`{protocol}://{hostname}:{port}/{apiVersion}/{endpoint_and_query}`. -/
def getQueryUrl (escape : String → Option String) (c : PuppetdbConnector) (q : Query) :
    Except LibError String :=
  let protocol : String := if isSecure c then "https" else "http"
  let withQuery : Except LibError String :=
    if q.getQueryString = "" then Except.ok q.getEndpoint
    else
      match escape q.getQueryString with
      | none => Except.error (LibError.processing_error "failed to encode the query URL")
      | some encoded_query => Except.ok (q.getEndpoint ++ "?query=" ++ encoded_query)
  match withQuery with
  | Except.error e => Except.error e
  | Except.ok endpoint_and_query =>
    Except.ok (protocol ++ "://" ++ c.hostname ++ ":" ++ toString c.port
               ++ "/" ++ apiVersionString c.api_version ++ "/" ++ endpoint_and_query)

/-- Result of one `setupAndPerform` call in version 0.2.0: the returned string
or thrown error, the connector state after the call, and the curl events. -/
structure Outcome where
  result : Except LibError String
  conn : PuppetdbConnector
  trace : List CurlEvent
deriving DecidableEq, Repr

/-- `PuppetdbConnector::setupAndPerform` (0.2.0). When `curl_easy_init` fails
the whole body is skipped and the empty buffer is returned. Otherwise
`getQueryUrl` runs (its `processing_error` propagates before
`performed_query_url_` is assigned and before any cleanup), the handle is
configured, `curl_easy_perform` runs, a non-OK code throws `processing_error`
with `curl_easy_strerror` (skipping `curl_easy_cleanup`), and on success the
handle is cleaned up and the accumulated buffer returned. -/
def setupAndPerform (curl : CurlBehavior) (c : PuppetdbConnector) (q : Query) : Outcome :=
  if curl.initOk then
    match getQueryUrl curl.escape c q with
    | Except.error e =>
      { result := Except.error e, conn := c, trace := [CurlEvent.easyInit true] }
    | Except.ok url =>
      let c2 := { c with performed_query_url := url }
      let outcome := curl.performResult url
      if outcome.1 ≠ 0 then
        { result := Except.error (LibError.processing_error (curl.strerror outcome.1)),
          conn := c2,
          trace := [CurlEvent.easyInit true, CurlEvent.easyPerform url] }
      else
        { result := Except.ok outcome.2,
          conn := c2,
          trace := [CurlEvent.easyInit true, CurlEvent.easyPerform url, CurlEvent.easyCleanup] }
  else
    { result := Except.ok "", conn := c, trace := [CurlEvent.easyInit false] }

/-- `PuppetdbConnector::performQuery` (0.2.0): delegates to
`setupAndPerform`. -/
def performQuery (curl : CurlBehavior) (c : PuppetdbConnector) (q : Query) : Outcome :=
  setupAndPerform curl c q

end V020

namespace V010

/-- `ApiVersion` enum of LibPuppetdb 0.1.0 (no v4). -/
inductive ApiVersion
  | v2
  | v3
deriving DecidableEq, Repr

/-- `ApiVersionsMap` lookup of version 0.1.0. -/
def apiVersionString : ApiVersion → String
  | ApiVersion.v2 => "v2"
  | ApiVersion.v3 => "v3"

/-- `ErrorCode::OK`. -/
def ERROR_OK : Int := 100

/-- `ErrorCode::INVALID_CONNECTION`. -/
def ERROR_INVALID_CONNECTION : Int := 101

/-- `ErrorCode::INVALID_QUERY`. -/
def ERROR_INVALID_QUERY : Int := 102

/-- `ErrorCode::URL_ENCODING_FAILURE`. -/
def ERROR_URL_ENCODING_FAILURE : Int := 103

/-- A `Query` object of version 0.1.0: endpoint, query string and the integer
error-code field tracking invalid initialization and query status. -/
structure Query where
  endpoint : String
  query_string : String
  error_code : Int
deriving DecidableEq, Repr

/-- The `Query` constructor (0.1.0): never fails; sets the error code to
`INVALID_QUERY` when the endpoint is empty and to `OK` otherwise. -/
def mkQuery (endpoint : String) (query_string : String) : Query :=
  { endpoint := endpoint, query_string := query_string,
    error_code := if endpoint = "" then ERROR_INVALID_QUERY else ERROR_OK }

/-- `Query::isValid`. -/
def Query.isValid (q : Query) : Bool := q.error_code = ERROR_OK

/-- `Query::getErrorCode`. -/
def Query.getErrorCode (q : Query) : Int := q.error_code

/-- `Query::setErrorCode`. -/
def Query.setErrorCode (q : Query) (error_code : Int) : Query :=
  { q with error_code := error_code }

/-- `Query::getEndpoint`. -/
def Query.getEndpoint (q : Query) : String := q.endpoint

/-- `Query::getQueryString`. -/
def Query.getQueryString (q : Query) : String := q.query_string

/-- A `PuppetdbConnector` object of version 0.1.0, with the validity flag and
error message mimicking RAII without exceptions. -/
structure PuppetdbConnector where
  hostname : String
  port : Int
  api_version : ApiVersion
  ca_crt_path : String
  client_crt_path : String
  client_key_path : String
  is_secure : Bool
  is_valid : Bool
  error_msg : String
  performed_query_url : String
deriving DecidableEq, Repr

/-- `PuppetdbConnector::isValid`. -/
def isValid (c : PuppetdbConnector) : Bool := c.is_valid

/-- `PuppetdbConnector::isSecure`. -/
def isSecure (c : PuppetdbConnector) : Bool := c.is_secure

/-- `PuppetdbConnector::getErrorMessage`. -/
def getErrorMessage (c : PuppetdbConnector) : String := c.error_msg

/-- `PuppetdbConnector::getPerformedQueryUrl`. -/
def getPerformedQueryUrl (c : PuppetdbConnector) : String := c.performed_query_url

/-- `PuppetdbConnector::checkHostname` (0.1.0): on an empty hostname flags the
connector invalid with the fixed message and reports failure. -/
def checkHostname (c : PuppetdbConnector) : Bool × PuppetdbConnector :=
  if c.hostname = "" then
    (false, { c with is_valid := false, error_msg := "No hostname was specified." })
  else (true, c)

/-- `PuppetdbConnector::checkSSLSupport` (0.1.0). -/
def checkSSLSupport (env : SysEnv) (c : PuppetdbConnector) : Bool × PuppetdbConnector :=
  if env.sslSupported then (true, c)
  else (false, { c with is_valid := false, error_msg := "libcurl is not SSL enabled." })

/-- `PuppetdbConnector::checkCertificates` (0.1.0): the first loop flags the
first empty attribute among hostname and the three certificate paths, the
second loop flags the first certificate path that is not an existing file. -/
def checkCertificates (env : SysEnv) (c : PuppetdbConnector) : Bool × PuppetdbConnector :=
  match firstSuchThat (fun attr => attr = "")
      [c.hostname, c.ca_crt_path, c.client_crt_path, c.client_key_path] with
  | some _ =>
    (false, { c with is_valid := false, error_msg := "Not all certificates were specified." })
  | none =>
    match firstSuchThat (fun attr => !(fileExists env attr))
        [c.ca_crt_path, c.client_crt_path, c.client_key_path] with
    | some attr =>
      (false, { c with is_valid := false, error_msg := "Invalid certificate: " ++ attr })
    | none => (true, c)

/-- The HTTP (plain) constructor of version 0.1.0: fields initialized with
`is_valid = true`, then `checkHostname` runs. -/
def mkConnector (hostname : String) (port : Int) (api_version : ApiVersion) :
    PuppetdbConnector :=
  (checkHostname
    { hostname := hostname, port := port, api_version := api_version,
      ca_crt_path := "", client_crt_path := "", client_key_path := "",
      is_secure := false, is_valid := true, error_msg := "",
      performed_query_url := "" }).2

/-- The SSL constructor of version 0.1.0: fields initialized with
`is_valid = true`, then `checkHostname`, `checkSSLSupport` and
`checkCertificates` run in order, each early-returning on failure. -/
def mkSecureConnector (env : SysEnv)
    (hostname ca_crt_path client_crt_path client_key_path : String)
    (port : Int) (api_version : ApiVersion) : PuppetdbConnector :=
  let c0 : PuppetdbConnector :=
    { hostname := hostname, port := port, api_version := api_version,
      ca_crt_path := ca_crt_path, client_crt_path := client_crt_path,
      client_key_path := client_key_path,
      is_secure := true, is_valid := true, error_msg := "",
      performed_query_url := "" }
  let r1 := checkHostname c0
  if !r1.1 then r1.2
  else
    let r2 := checkSSLSupport env r1.2
    if !r2.1 then r2.2
    else (checkCertificates env r2.2).2

/-- `PuppetdbConnector::getQueryUrl` (0.1.0): like the 0.2.0 version but
returns the empty string instead of throwing when `curl_easy_escape` returns
NULL. -/
def getQueryUrl (escape : String → Option String) (c : PuppetdbConnector) (q : Query) :
    String :=
  let protocol : String := if isSecure c then "https" else "http"
  let assemble : String → String := fun endpoint_and_query =>
    protocol ++ "://" ++ c.hostname ++ ":" ++ toString c.port
    ++ "/" ++ apiVersionString c.api_version ++ "/" ++ endpoint_and_query
  if q.getQueryString = "" then assemble q.getEndpoint
  else
    match escape q.getQueryString with
    | none => ""
    | some encoded_query => assemble (q.getEndpoint ++ "?query=" ++ encoded_query)

/-- Result of one `performQuery`/`setupAndPerform` call in version 0.1.0: the
returned string, the query object (its error code may have been set), the
connector state after the call, and the curl events. -/
structure Outcome where
  result : String
  query : Query
  conn : PuppetdbConnector
  trace : List CurlEvent
deriving DecidableEq, Repr

/-- `PuppetdbConnector::setupAndPerform` (0.1.0). When `curl_easy_init` fails
everything is skipped and the empty buffer returned. Otherwise the built URL
is stored in `performed_query_url_`; an empty URL (encoding failure) sets
`URL_ENCODING_FAILURE` on the query; otherwise the handle is configured,
`curl_easy_perform` runs and a non-OK code is stored on the query; on every
path with a handle, `curl_easy_cleanup` runs before returning the buffer. -/
def setupAndPerform (curl : CurlBehavior) (c : PuppetdbConnector) (q : Query) : Outcome :=
  if curl.initOk then
    let url := getQueryUrl curl.escape c q
    let c2 := { c with performed_query_url := url }
    if url = "" then
      { result := "", query := q.setErrorCode ERROR_URL_ENCODING_FAILURE, conn := c2,
        trace := [CurlEvent.easyInit true, CurlEvent.easyCleanup] }
    else
      let outcome := curl.performResult url
      { result := outcome.2,
        query := if outcome.1 ≠ 0 then q.setErrorCode outcome.1 else q,
        conn := c2,
        trace := [CurlEvent.easyInit true, CurlEvent.easyPerform url, CurlEvent.easyCleanup] }
  else
    { result := "", query := q, conn := c, trace := [CurlEvent.easyInit false] }

/-- `PuppetdbConnector::performQuery` (0.1.0): returns the empty string
immediately when the connector is invalid (after stamping
`INVALID_CONNECTION` on the query) or when the query is invalid; otherwise
delegates to `setupAndPerform`. -/
def performQuery (curl : CurlBehavior) (c : PuppetdbConnector) (q : Query) : Outcome :=
  if isValid c then
    if q.isValid then setupAndPerform curl c q
    else { result := "", query := q, conn := c, trace := [] }
  else
    { result := "", query := q.setErrorCode ERROR_INVALID_CONNECTION, conn := c, trace := [] }

end V010

namespace PQ

/-- A `Query` object of PuppetdbQuery 0.1.0 (the oldest lineage version,
embedded in `src/test/libpuppetdb_test.cpp`): endpoint, query string and the
integer error-code field. -/
structure Query where
  endpoint : String
  query_string : String
  error_code : Int
deriving DecidableEq, Repr

/-- The PuppetdbQuery `Query` constructor: never fails; error code 102
(`INVALID_QUERY`) when the endpoint is empty, 100 (`OK`) otherwise. -/
def mkQuery (endpoint : String) (query_string : String) : Query :=
  { endpoint := endpoint, query_string := query_string,
    error_code := if endpoint = "" then 102 else 100 }

/-- `Query::isValid` (PuppetdbQuery). -/
def Query.isValid (q : Query) : Bool := q.error_code = 100

/-- `Query::toString` (PuppetdbQuery): the endpoint alone when the query
string is empty, otherwise `endpoint + "?query=" + query_string`, with no
encoding of either part. -/
def Query.toString (q : Query) : String :=
  if q.query_string = "" then q.endpoint
  else q.endpoint ++ "?query=" ++ q.query_string

end PQ

/-- The plain connector of §8 of the spec: hostname "spam", port 8080, API v3,
as produced by the 0.2.0 HTTP constructor. -/
def spamConnector : V020.PuppetdbConnector :=
  { hostname := "spam", port := 8080, api_version := V020.ApiVersion.v3,
    ca_crt_path := "", client_crt_path := "", client_key_path := "",
    is_secure := false, performed_query_url := "" }

/-- The 0.1.0 getQueryUrl reads only the configuration fields, so updating the
stored performed-query URL does not change the URL it builds. -/
theorem V010.getQueryUrl_update_performed (esc : String → Option String)
    (c : V010.PuppetdbConnector) (u : String) (q : V010.Query) :
    V010.getQueryUrl esc { c with performed_query_url := u } q = V010.getQueryUrl esc c q := rfl

/-- `checkHostname` (0.1.0) never touches the stored performed-query URL. -/
theorem V010.checkHostname_preserves_url (c : V010.PuppetdbConnector) :
    (V010.checkHostname c).2.performed_query_url = c.performed_query_url := by
  unfold V010.checkHostname
  split <;> rfl

/-- `checkSSLSupport` (0.1.0) never touches the stored performed-query URL. -/
theorem V010.checkSSLSupport_preserves_url (env : SysEnv) (c : V010.PuppetdbConnector) :
    (V010.checkSSLSupport env c).2.performed_query_url = c.performed_query_url := by
  unfold V010.checkSSLSupport
  split <;> rfl

/-- `checkCertificates` (0.1.0) never touches the stored performed-query
URL. -/
theorem V010.checkCertificates_preserves_url (env : SysEnv) (c : V010.PuppetdbConnector) :
    (V010.checkCertificates env c).2.performed_query_url = c.performed_query_url := by
  unfold V010.checkCertificates
  split
  · rfl
  · split <;> rfl

/-- C1: for every connector and query, `getQueryUrl` yields
`scheme://hostname:port/apiVersion/endpoint`, with `?query=` followed by the
transport-encoded query string appended exactly when the query string is
non-empty, where the scheme is https iff the connector is secure; and for the
plain connector with hostname "spam", port 8080, API v3 and `Query("facts")`
it yields exactly `http://spam:8080/v3/facts`. -/
theorem c1_getQueryUrl_format :
    ∀ (esc : String → Option String) (c : V020.PuppetdbConnector) (q : V020.Query),
      (q.query_string = "" →
        V020.getQueryUrl esc c q =
          Except.ok ((if c.is_secure then "https" else "http") ++ "://" ++ c.hostname ++ ":"
            ++ toString c.port ++ "/" ++ V020.apiVersionString c.api_version ++ "/"
            ++ q.endpoint)) ∧
      (∀ enc, q.query_string ≠ "" → esc q.query_string = some enc →
        V020.getQueryUrl esc c q =
          Except.ok ((if c.is_secure then "https" else "http") ++ "://" ++ c.hostname ++ ":"
            ++ toString c.port ++ "/" ++ V020.apiVersionString c.api_version ++ "/"
            ++ q.endpoint ++ "?query=" ++ enc)) ∧
      (V020.mkConnector "spam" 8080 V020.ApiVersion.v3 = Except.ok spamConnector ∧
       V020.mkQuery "facts" "" = Except.ok { endpoint := "facts", query_string := "" } ∧
       V020.getQueryUrl esc spamConnector { endpoint := "facts", query_string := "" } =
         Except.ok "http://spam:8080/v3/facts") := by
  intro esc c q
  refine ⟨?_, ?_, rfl, rfl, rfl⟩
  · intro hq
    simp [V020.getQueryUrl, V020.Query.getQueryString, V020.Query.getEndpoint,
          V020.isSecure, hq]
  · intro enc hq hesc
    simp [V020.getQueryUrl, V020.Query.getQueryString, V020.Query.getEndpoint,
          V020.isSecure, hq, hesc, String.append_assoc]

/-- Witness for C1: instantiating the non-empty-query-string branch at the
"spam" connector, `Query("nodes", "bar")` and an identity escape yields
`http://spam:8080/v3/nodes?query=bar`. -/
theorem c1_getQueryUrl_format_witness :
    V020.getQueryUrl (fun s => some s) spamConnector
      { endpoint := "nodes", query_string := "bar" } =
      Except.ok "http://spam:8080/v3/nodes?query=bar" := by
  have h := (c1_getQueryUrl_format (fun s => some s) spamConnector
    { endpoint := "nodes", query_string := "bar" }).2.1 "bar" (by decide) rfl
  exact h

/-- C2: constructing `Query(e, q)` throws `query_error` exactly when the
endpoint `e` is empty; when `e` is non-empty the endpoint and query string
are stored verbatim and `getEndpoint`/`getQueryString` return them
unchanged. -/
theorem c2_query_construction :
    ∀ e q : String,
      ((∃ msg, V020.mkQuery e q = Except.error (V020.LibError.query_error msg)) ↔ e = "") ∧
      (e ≠ "" →
        V020.mkQuery e q = Except.ok { endpoint := e, query_string := q } ∧
        V020.Query.getEndpoint { endpoint := e, query_string := q } = e ∧
        V020.Query.getQueryString { endpoint := e, query_string := q } = q) := by
  intro e q
  by_cases he : e = ""
  · subst he
    exact ⟨⟨fun _ => rfl, fun _ => ⟨"no endpoint specified", rfl⟩⟩, fun h => absurd rfl h⟩
  · refine ⟨⟨?_, fun h => absurd h he⟩, fun _ => ⟨?_, rfl, rfl⟩⟩
    · intro ⟨msg, hm⟩
      rw [V020.mkQuery, if_neg he] at hm
      exact Except.noConfusion hm
    · rw [V020.mkQuery, if_neg he]

/-- Witness for C2: `Query("facts", "bar")` constructs successfully and
stores both strings verbatim. -/
theorem c2_query_construction_witness :
    V020.mkQuery "facts" "bar" = Except.ok { endpoint := "facts", query_string := "bar" } :=
  ((c2_query_construction "facts" "bar").2 (by decide)).1

/-- C3: the SSL constructor validates hostname non-emptiness, then TLS
support, then non-emptiness of the three certificate paths, then existence of
each certificate file (CA before client certificate before client key), and
the first failing check determines the thrown error; in particular when all
three paths name non-existent files the error names the CA certificate
path. -/
theorem c3_secure_validation_order :
    ∀ (env : SysEnv) (hn ca crt key : String) (port : Int) (api : V020.ApiVersion),
      (V020.mkSecureConnector env hn ca crt key port api =
        if hn = "" then
          Except.error (V020.LibError.connector_error "no hostname specified")
        else if env.sslSupported = false then
          Except.error (V020.LibError.connector_error "libcurl is not SSL enabled")
        else if ca = "" ∨ crt = "" ∨ key = "" then
          Except.error (V020.LibError.connector_error "not all certificates were specified")
        else if fileExists env ca = false then
          Except.error (V020.LibError.connector_error ("invalid certificate file: " ++ ca))
        else if fileExists env crt = false then
          Except.error (V020.LibError.connector_error ("invalid certificate file: " ++ crt))
        else if fileExists env key = false then
          Except.error (V020.LibError.connector_error ("invalid certificate file: " ++ key))
        else
          Except.ok { hostname := hn, port := port, api_version := api,
                      ca_crt_path := ca, client_crt_path := crt, client_key_path := key,
                      is_secure := true, performed_query_url := "" }) ∧
      (hn ≠ "" → env.sslSupported = true → ca ≠ "" → crt ≠ "" → key ≠ "" →
        env.fsGood ca = false → env.fsGood crt = false → env.fsGood key = false →
        V020.mkSecureConnector env hn ca crt key port api =
          Except.error (V020.LibError.connector_error ("invalid certificate file: " ++ ca))) := by
  intro env hn ca crt key port api
  have main :
      V020.mkSecureConnector env hn ca crt key port api =
        if hn = "" then
          Except.error (V020.LibError.connector_error "no hostname specified")
        else if env.sslSupported = false then
          Except.error (V020.LibError.connector_error "libcurl is not SSL enabled")
        else if ca = "" ∨ crt = "" ∨ key = "" then
          Except.error (V020.LibError.connector_error "not all certificates were specified")
        else if fileExists env ca = false then
          Except.error (V020.LibError.connector_error ("invalid certificate file: " ++ ca))
        else if fileExists env crt = false then
          Except.error (V020.LibError.connector_error ("invalid certificate file: " ++ crt))
        else if fileExists env key = false then
          Except.error (V020.LibError.connector_error ("invalid certificate file: " ++ key))
        else
          Except.ok { hostname := hn, port := port, api_version := api,
                      ca_crt_path := ca, client_crt_path := crt, client_key_path := key,
                      is_secure := true, performed_query_url := "" } := by
    by_cases hh : hn = "" <;>
      by_cases hssl : env.sslSupported <;>
        by_cases hca : ca = "" <;>
          by_cases hcrt : crt = "" <;>
            by_cases hkey : key = "" <;>
              by_cases fca : fileExists env ca <;>
                by_cases fcrt : fileExists env crt <;>
                  by_cases fkey : fileExists env key <;>
      simp [V020.mkSecureConnector, V020.checkHostname, V020.checkSSLSupport,
            V020.checkCertificates, firstSuchThat, hh, hssl, hca, hcrt, hkey,
            fca, fcrt, fkey]
  refine ⟨main, ?_⟩
  intro hh hssl hca hcrt hkey fca fcrt fkey
  have hfca : fileExists env ca = false := by simp [fileExists, hca, fca]
  rw [main, if_neg hh, if_neg (by simp [hssl]),
      if_neg (by simp [hca, hcrt, hkey]), if_pos hfca]

/-- Witness for C3: a secure connector whose three certificate paths all name
non-existent files (a filesystem where nothing exists) fails with the error
naming the CA certificate path, matching the `ConnectWithSSLNonExistentCerts`
inputs of the test suite. -/
theorem c3_secure_validation_order_witness :
    V020.mkSecureConnector { sslSupported := true, fsGood := fun _ => false }
      "fake_host" "/fake/path/ca.cer" "/fake/path/host.cer" "/fake/path/host.key"
      8081 V020.ApiVersion.v4 =
      Except.error (V020.LibError.connector_error "invalid certificate file: /fake/path/ca.cer") := by
  have h := (c3_secure_validation_order { sslSupported := true, fsGood := fun _ => false }
    "fake_host" "/fake/path/ca.cer" "/fake/path/host.cer" "/fake/path/host.key"
    8081 V020.ApiVersion.v4).2 (by decide) rfl (by decide) (by decide) (by decide) rfl rfl rfl
  exact h

/-- C4: `performQuery` on an invalid connector touches no curl facility
(empty event trace, hence no network I/O), stamps `INVALID_CONNECTION` (101)
on the query and returns the empty string; `performQuery` with a valid
connector but an invalid query likewise touches no curl facility and returns
the empty string immediately (leaving the query unchanged). -/
theorem c4_performQuery_invalid_no_io :
    ∀ (curl : CurlBehavior) (c : V010.PuppetdbConnector) (q : V010.Query),
      (c.is_valid = false →
        V010.performQuery curl c q =
          { result := "", query := q.setErrorCode V010.ERROR_INVALID_CONNECTION,
            conn := c, trace := [] }) ∧
      (c.is_valid = true → q.isValid = false →
        V010.performQuery curl c q = { result := "", query := q, conn := c, trace := [] }) := by
  intro curl c q
  constructor
  · intro hc
    simp [V010.performQuery, V010.isValid, hc]
  · intro hc hq
    simp [V010.performQuery, V010.isValid, hc, hq]

/-- Witness for C4: the connector built with an empty hostname is invalid, and
`performQuery` on it with `Query("spam")` returns the empty string with no
curl events, setting error code 101 on the query. -/
theorem c4_performQuery_invalid_no_io_witness :
    V010.performQuery
      { initOk := true, escape := fun s => some s,
        performResult := fun _ => (0, "[]"), strerror := fun _ => "" }
      (V010.mkConnector "" 8080 V010.ApiVersion.v3) (V010.mkQuery "spam" "") =
      { result := "", query := (V010.mkQuery "spam" "").setErrorCode 101,
        conn := V010.mkConnector "" 8080 V010.ApiVersion.v3, trace := [] } :=
  (c4_performQuery_invalid_no_io
    { initOk := true, escape := fun s => some s,
      performResult := fun _ => (0, "[]"), strerror := fun _ => "" }
    (V010.mkConnector "" 8080 V010.ApiVersion.v3) (V010.mkQuery "spam" "")).1 rfl

/-- A transport behaviour whose blocking call fails with
`CURLE_COULDNT_CONNECT` (7) after the write callback has already received
partial data — possible in libcurl when a transfer breaks mid-body. -/
def partialDataFailCurl : CurlBehavior :=
  { initOk := true, escape := fun s => some s,
    performResult := fun _ => (7, "partial"), strerror := fun _ => "could not connect" }

/-- Counterexample to C5: on a valid connector ("spam") and valid query
("nodes"), a transport failure (code 7) that delivered partial data to the
write callback is recorded on the query's error field, yet `performQuery`
returns the accumulated buffer "partial", not the empty string — the code
returns `result_buffer` as-is after a failed `curl_easy_perform`. -/
theorem c5_transport_failure_nonempty_result :
    (V010.mkConnector "spam" 8080 V010.ApiVersion.v3).is_valid = true ∧
    (V010.mkQuery "nodes" "").isValid = true ∧
    (V010.performQuery partialDataFailCurl
      (V010.mkConnector "spam" 8080 V010.ApiVersion.v3) (V010.mkQuery "nodes" "")).query.error_code = 7 ∧
    (V010.performQuery partialDataFailCurl
      (V010.mkConnector "spam" 8080 V010.ApiVersion.v3) (V010.mkQuery "nodes" "")).result = "partial" ∧
    ("partial" : String) ≠ "" := by
  refine ⟨rfl, by decide, ?_, ?_, by decide⟩ <;> rfl

/-- C5 as amended: for every valid connector and valid query (with a curl
handle available), a URL-encoding failure is recorded as error 103 on the
query and `performQuery` returns the empty string; a transport failure is
recorded as the transport's error code on the query and `performQuery`
returns exactly the data the transport delivered to the write callback before
failing — the empty string whenever nothing was delivered, but not in
general. -/
theorem c5_failure_recording_amended :
    ∀ (curl : CurlBehavior) (c : V010.PuppetdbConnector) (q : V010.Query),
      c.is_valid = true → q.isValid = true → curl.initOk = true →
      (V010.getQueryUrl curl.escape c q = "" →
        (V010.performQuery curl c q).result = "" ∧
        (V010.performQuery curl c q).query.error_code = V010.ERROR_URL_ENCODING_FAILURE) ∧
      (∀ code data, V010.getQueryUrl curl.escape c q ≠ "" →
        curl.performResult (V010.getQueryUrl curl.escape c q) = (code, data) → code ≠ 0 →
        (V010.performQuery curl c q).query.error_code = code ∧
        (V010.performQuery curl c q).result = data) := by
  intro curl c q hc hq hinit
  constructor
  · intro hurl
    simp [V010.performQuery, V010.isValid, V010.setupAndPerform, V010.Query.setErrorCode,
          hc, hq, hinit, hurl]
  · intro code data hurl hperf hcode
    simp [V010.performQuery, V010.isValid, V010.setupAndPerform, V010.Query.setErrorCode,
          hc, hq, hinit, hurl, hperf, hcode]

/-- Witness for C5 as amended: a failing escape (NULL from
`curl_easy_escape`) on `Query("nodes", "bar")` makes `performQuery` return ""
with error code 103 on the query. -/
theorem c5_failure_recording_amended_witness :
    (V010.performQuery
      { initOk := true, escape := fun _ => none,
        performResult := fun _ => (0, ""), strerror := fun _ => "" }
      (V010.mkConnector "spam" 8080 V010.ApiVersion.v3)
      (V010.mkQuery "nodes" "bar")).result = "" ∧
    (V010.performQuery
      { initOk := true, escape := fun _ => none,
        performResult := fun _ => (0, ""), strerror := fun _ => "" }
      (V010.mkConnector "spam" 8080 V010.ApiVersion.v3)
      (V010.mkQuery "nodes" "bar")).query.error_code = 103 :=
  (c5_failure_recording_amended
    { initOk := true, escape := fun _ => none,
      performResult := fun _ => (0, ""), strerror := fun _ => "" }
    (V010.mkConnector "spam" 8080 V010.ApiVersion.v3)
    (V010.mkQuery "nodes" "bar") rfl (by decide) rfl).1 rfl

/-- C6: `getPerformedQueryUrl` is the empty string right after construction
(both constructors); after a `performQuery` on a valid connector with a valid
query (with a curl handle available) it equals the URL `getQueryUrl` builds
for that query; and after two successive `performQuery` calls it matches the
most recent query each time. -/
theorem c6_lastRequestUrl_tracking :
    (∀ hn p v, V010.getPerformedQueryUrl (V010.mkConnector hn p v) = "") ∧
    (∀ env hn ca crt key p v,
      V010.getPerformedQueryUrl (V010.mkSecureConnector env hn ca crt key p v) = "") ∧
    (∀ (curl : CurlBehavior) (c : V010.PuppetdbConnector) (q : V010.Query),
      c.is_valid = true → q.isValid = true → curl.initOk = true →
      V010.getPerformedQueryUrl (V010.performQuery curl c q).conn =
        V010.getQueryUrl curl.escape c q) ∧
    (∀ (curl : CurlBehavior) (c : V010.PuppetdbConnector) (q1 q2 : V010.Query),
      c.is_valid = true → q1.isValid = true → q2.isValid = true → curl.initOk = true →
      V010.getPerformedQueryUrl
        (V010.performQuery curl (V010.performQuery curl c q1).conn q2).conn =
        V010.getQueryUrl curl.escape c q2) := by
  have after_one :
      ∀ (curl : CurlBehavior) (c : V010.PuppetdbConnector) (q : V010.Query),
        c.is_valid = true → q.isValid = true → curl.initOk = true →
        (V010.performQuery curl c q).conn =
          { c with performed_query_url := V010.getQueryUrl curl.escape c q } := by
    intro curl c q hc hq hinit
    by_cases hurl : V010.getQueryUrl curl.escape c q = "" <;>
      simp [V010.performQuery, V010.isValid, V010.setupAndPerform, hc, hq, hinit, hurl]
  refine ⟨?_, ?_, ?_, ?_⟩
  · intro hn p v
    by_cases hh : hn = "" <;>
      simp [V010.getPerformedQueryUrl, V010.mkConnector, V010.checkHostname, hh]
  · intro env hn ca crt key p v
    simp only [V010.mkSecureConnector, V010.getPerformedQueryUrl]
    split
    · rw [V010.checkHostname_preserves_url]
    · split
      · rw [V010.checkSSLSupport_preserves_url, V010.checkHostname_preserves_url]
      · rw [V010.checkCertificates_preserves_url, V010.checkSSLSupport_preserves_url,
            V010.checkHostname_preserves_url]
  · intro curl c q hc hq hinit
    rw [after_one curl c q hc hq hinit]
    rfl
  · intro curl c q1 q2 hc hq1 hq2 hinit
    rw [after_one curl c q1 hc hq1 hinit]
    rw [after_one curl _ q2 (by exact hc) hq2 hinit]
    rfl

/-- Witness for C6: on the "spam" connector with queries "eggs" then "beans"
and a succeeding transport, the stored URL after the second call is the
"beans" URL. -/
theorem c6_lastRequestUrl_tracking_witness :
    V010.getPerformedQueryUrl
      (V010.performQuery
        { initOk := true, escape := fun s => some s,
          performResult := fun _ => (0, "[]"), strerror := fun _ => "" }
        (V010.performQuery
          { initOk := true, escape := fun s => some s,
            performResult := fun _ => (0, "[]"), strerror := fun _ => "" }
          (V010.mkConnector "spam" 8080 V010.ApiVersion.v3)
          (V010.mkQuery "eggs" "")).conn
        (V010.mkQuery "beans" "")).conn = "http://spam:8080/v3/beans" := by
  have h := (c6_lastRequestUrl_tracking).2.2.2
    { initOk := true, escape := fun s => some s,
      performResult := fun _ => (0, "[]"), strerror := fun _ => "" }
    (V010.mkConnector "spam" 8080 V010.ApiVersion.v3)
    (V010.mkQuery "eggs" "") (V010.mkQuery "beans" "") rfl (by decide) (by decide) rfl
  exact h

/-- C7: for every valid PuppetdbQuery `Query`, `toString` is the endpoint
alone when the query string is empty and `endpoint + "?query=" + queryString`
verbatim (no percent-encoding of either part) when it is non-empty. -/
theorem c7_query_toString :
    ∀ q : PQ.Query, q.isValid = true →
      (q.query_string = "" → PQ.Query.toString q = q.endpoint) ∧
      (q.query_string ≠ "" →
        PQ.Query.toString q = q.endpoint ++ "?query=" ++ q.query_string) := by
  intro q _
  constructor
  · intro hq
    simp [PQ.Query.toString, hq]
  · intro hq
    simp [PQ.Query.toString, hq]

/-- Witness for C7: `Query("nodes", "bar")` is valid and its string form is
exactly `nodes?query=bar`; `Query("facts")` renders as `facts` alone. -/
theorem c7_query_toString_witness :
    PQ.Query.toString (PQ.mkQuery "nodes" "bar") = "nodes?query=bar" ∧
    PQ.Query.toString (PQ.mkQuery "facts" "") = "facts" :=
  ⟨(c7_query_toString (PQ.mkQuery "nodes" "bar") (by decide)).2 (by decide),
   (c7_query_toString (PQ.mkQuery "facts" "") (by decide)).1 rfl⟩

/-- A transport behaviour whose `curl_easy_escape` returns NULL. -/
def nullEscapeCurl : CurlBehavior :=
  { initOk := true, escape := fun _ => none,
    performResult := fun _ => (0, ""), strerror := fun _ => "" }

/-- A transport behaviour whose blocking call fails with code 7 and delivers
no data. -/
def connectFailCurl : CurlBehavior :=
  { initOk := true, escape := fun s => some s,
    performResult := fun _ => (7, ""), strerror := fun _ => "could not connect" }

/-- C8 failing inputs: in the 0.2.0 `setupAndPerform`, on the two throwing
error paths — URL-encoding failure and transport failure — the acquired curl
handle is never released: the event trace records a successful
`curl_easy_init` but contains no `curl_easy_cleanup`, because the throw
happens before the cleanup call. (The release does happen on the success
path.) Exercised on the constructed connector `PuppetdbConnector("spam",
8080, v3)` and query `Query("nodes", "bar")`. -/
theorem c8_handle_leak_on_error_paths :
    V020.mkConnector "spam" 8080 V020.ApiVersion.v3 = Except.ok spamConnector ∧
    V020.mkQuery "nodes" "bar" = Except.ok { endpoint := "nodes", query_string := "bar" } ∧
    ((V020.performQuery nullEscapeCurl spamConnector
        { endpoint := "nodes", query_string := "bar" }).result =
      Except.error (V020.LibError.processing_error "failed to encode the query URL") ∧
     (V020.performQuery nullEscapeCurl spamConnector
        { endpoint := "nodes", query_string := "bar" }).trace = [CurlEvent.easyInit true] ∧
     CurlEvent.easyCleanup ∉ (V020.performQuery nullEscapeCurl spamConnector
        { endpoint := "nodes", query_string := "bar" }).trace) ∧
    ((V020.performQuery connectFailCurl spamConnector
        { endpoint := "nodes", query_string := "bar" }).result =
      Except.error (V020.LibError.processing_error "could not connect") ∧
     (V020.performQuery connectFailCurl spamConnector
        { endpoint := "nodes", query_string := "bar" }).trace =
       [CurlEvent.easyInit true, CurlEvent.easyPerform "http://spam:8080/v3/nodes?query=bar"] ∧
     CurlEvent.easyCleanup ∉ (V020.performQuery connectFailCurl spamConnector
        { endpoint := "nodes", query_string := "bar" }).trace) := by
  refine ⟨rfl, rfl, ⟨rfl, rfl, by decide⟩, ⟨rfl, rfl, by decide⟩⟩

/-- C9: when `curl_easy_init` fails, `performQuery` returns the empty string
without raising any error, without touching any error state, and without
modifying the stored performed-query URL: in 0.2.0 the whole outcome is
`(ok "", unchanged connector)`, and in 0.1.0 (where the query carries an
error field) the query and connector both come back unchanged with an empty
result. In both versions the only curl event is the failed init. -/
theorem c9_init_failure_silent :
    (∀ (curl : CurlBehavior) (c : V020.PuppetdbConnector) (q : V020.Query),
      curl.initOk = false →
      V020.performQuery curl c q =
        { result := Except.ok "", conn := c, trace := [CurlEvent.easyInit false] }) ∧
    (∀ (curl : CurlBehavior) (c : V010.PuppetdbConnector) (q : V010.Query),
      curl.initOk = false → c.is_valid = true → q.isValid = true →
      V010.performQuery curl c q =
        { result := "", query := q, conn := c, trace := [CurlEvent.easyInit false] }) := by
  constructor
  · intro curl c q hinit
    simp [V020.performQuery, V020.setupAndPerform, hinit]
  · intro curl c q hinit hc hq
    simp [V010.performQuery, V010.isValid, V010.setupAndPerform, hinit, hc, hq]

/-- Witness for C9: with a failing `curl_easy_init`, `performQuery` on the
"spam" connector and `Query("facts")` silently yields the empty string and
leaves the connector untouched. -/
theorem c9_init_failure_silent_witness :
    V020.performQuery
      { initOk := false, escape := fun s => some s,
        performResult := fun _ => (0, "[]"), strerror := fun _ => "" }
      spamConnector { endpoint := "facts", query_string := "" } =
      { result := Except.ok "", conn := spamConnector,
        trace := [CurlEvent.easyInit false] } :=
  (c9_init_failure_silent).1
    { initOk := false, escape := fun s => some s,
      performResult := fun _ => (0, "[]"), strerror := fun _ => "" }
    spamConnector { endpoint := "facts", query_string := "" } rfl
